import Mathlib

/-!
Verification of the `dc` repository: two single-page weather-fetching
applications.

The development shallowly embeds the logic-bearing functions of both source
files:

* `src/weatherfetcherapp1 (1)/app/page.tsx` (the "weekend" variant):
  `generateAllZipCodesForState`, `getWeekendDates`,
  `generateSampleWeekendData`, the status handling of
  `fetchWeekendWeatherForZip`, the sequential fetch loop of `startFetching`,
  `stopFetching`, and `escapeCSV` from `downloadCsv`.
* `src/app/page.tsx` (the "standard" variant): `isValidZipCode`,
  `validateAndCleanZipCodes`, `validateZipCodes` and the validation phase of
  `handleSubmit`.

JavaScript numbers that are only ever integers in the source are modelled as
`Nat`/`Int`; JavaScript doubles that flow through `Math.sin`-based arithmetic
are modelled as Lean `Float` and never evaluated, only compared for
structural equality.  Strings are Lean `String`; for all inputs occurring
here (ASCII) the JavaScript UTF-16 code-unit order coincides with the order
on the underlying character lists.
-/

/-! ## CSV field escaping (`escapeCSV` inside `downloadCsv`, weekend variant)

Source (lines 692-699):
```js
const escapeCSV = (value) => {
  if (value === null || value === undefined) return ""
  const stringValue = String(value)
  if (stringValue.includes(",") || stringValue.includes('"') || stringValue.includes("\n")) {
    return `"${stringValue.replace(/"/g, '""')}"`
  }
  return stringValue
}
```
All call sites pass strings (or template-string interpolations), so the
`null`/`undefined` branch is not modelled and the argument is a `String`.
-/

/-- The quoting condition of `escapeCSV`: the field contains a comma, a
double quote or a newline. -/
def needsQuoting (cs : List Char) : Bool :=
  cs.contains ',' || cs.contains '"' || cs.contains '\n'

/-- `value.replace(/"/g, '""')`: double every double-quote character. -/
def doubleQuotes : List Char → List Char
  | [] => []
  | c :: rest => if c = '"' then '"' :: '"' :: doubleQuotes rest else c :: doubleQuotes rest

/-- Embedding of `escapeCSV` (weekend variant, `downloadCsv`). -/
def escapeCSV (s : String) : String :=
  if needsQuoting s.data then String.mk ('"' :: (doubleQuotes s.data ++ ['"'])) else s

/-- Modelled from the spec: the un-escaping direction described by the claim
("stripping the wrapping quotes and collapsing doubled quotes").  The
repository only writes CSV; this is the reader used to state the round-trip.
Collapse each doubled quote into a single one. -/
def collapseQuotes : List Char → List Char
  | [] => []
  | [c] => [c]
  | c1 :: c2 :: rest =>
    if c1 = '"' ∧ c2 = '"' then '"' :: collapseQuotes rest
    else c1 :: collapseQuotes (c2 :: rest)

/-- Modelled from the spec: un-escape a CSV field, i.e. strip one layer of
wrapping quotes (if present) and collapse doubled quotes inside. -/
def unescapeCSV (s : String) : String :=
  match s.data with
  | '"' :: rest =>
    if rest.getLast? = some '"' then String.mk (collapseQuotes rest.dropLast) else s
  | _ => s

theorem doubleQuotes_eq_nil_iff (l : List Char) : doubleQuotes l = [] ↔ l = [] := by
  cases l with
  | nil => simp [doubleQuotes]
  | cons c rest =>
    simp only [doubleQuotes]
    split <;> simp

theorem collapseQuotes_doubleQuotes (l : List Char) :
    collapseQuotes (doubleQuotes l) = l := by
  induction l with
  | nil => rfl
  | cons c rest ih =>
    by_cases hc : c = '"'
    · subst hc
      have h1 : doubleQuotes ('"' :: rest) = '"' :: '"' :: doubleQuotes rest := by
        simp [doubleQuotes]
      rw [h1]
      rw [show collapseQuotes ('"' :: '"' :: doubleQuotes rest) = '"' :: collapseQuotes (doubleQuotes rest) by
        simp [collapseQuotes]]
      exact congrArg _ ih
    · simp only [doubleQuotes, if_neg hc]
      rcases hd : doubleQuotes rest with _ | ⟨d, ds⟩
      · have : rest = [] := (doubleQuotes_eq_nil_iff rest).mp hd
        subst this
        rfl
      · rw [show collapseQuotes (c :: d :: ds) = c :: collapseQuotes (d :: ds) by
          simp only [collapseQuotes]
          rw [if_neg (by exact fun h => hc h.1)]]
        rw [← hd, ih]

theorem needsQuoting_of_mem_quote {cs : List Char} (h : '"' ∈ cs) :
    needsQuoting cs = true := by
  simp [needsQuoting]
  exact Or.inl (Or.inr h)

/-! ## Fahrenheit round-trip (forecast temperatures, weekend variant)

`fetchWeekendWeatherForZip` computes (lines 509, 513, 517):
`Math.round(((((forecastData.days[i]?.tempmax - 32) * 5) / 9) * 9) / 5 + 32)`.
The inner expression before rounding is embedded below over exact rational
arithmetic. -/

/-- The °F→°C→°F conversion applied to this-weekend forecast `tempmax`
values before `Math.round` (lines 509/513/517 of the weekend variant). -/
def fahrenheitRoundTrip (x : ℚ) : ℚ :=
  ((((x - 32) * 5) / 9) * 9) / 5 + 32

/-! ## HTTP status handling of `fetchWeekendWeatherForZip` (lines 476-497)

The historical-range response gets dedicated messages for 401, 429 and 400;
every other failing status gets `Historical API Error {status}`.  The
forecast-range response is only ever mapped to `Forecast API Error {status}`.
`response.ok` is true exactly for statuses 200-299. -/

def invalidApiKeyMsg : String := "Invalid API key - Please check your Visual Crossing API key"

def rateLimitMsg : String := "Rate limit exceeded - Please wait and try again"

def invalidZipOrDateMsg : String := "Invalid ZIP code or date range"

/-- `Response.ok`: status in the inclusive range 200-299. -/
def responseOk (status : Nat) : Bool := 200 ≤ status && status ≤ 299

/-- The error message thrown for a failing historical-range response
(lines 477-487). -/
def historicalStatusError (status : Nat) : String :=
  if status = 401 then invalidApiKeyMsg
  else if status = 429 then rateLimitMsg
  else if status = 400 then invalidZipOrDateMsg
  else "Historical API Error " ++ toString status

/-- The error message thrown for a failing forecast-range response
(lines 495-497): always the generic tagged message. -/
def forecastStatusError (status : Nat) : String :=
  "Forecast API Error " ++ toString status

/-- Control flow of the two status checks in `fetchWeekendWeatherForZip`:
the historical request is checked first; only if it succeeds is the forecast
request issued and checked. -/
def fetchWeekendChecks (histStatus fcStatus : Nat) : Except String Unit :=
  if responseOk histStatus then
    if responseOk fcStatus then .ok ()
    else .error (forecastStatusError fcStatus)
  else .error (historicalStatusError histStatus)

theorem String.mk_data (s : String) : String.mk s.data = s := by
  cases s
  rfl

theorem unescapeCSV_escapeCSV (s : String) : unescapeCSV (escapeCSV s) = s := by
  by_cases hq : needsQuoting s.data = true
  · simp only [escapeCSV, if_pos hq]
    show unescapeCSV (String.mk ('"' :: (doubleQuotes s.data ++ ['"']))) = s
    simp only [unescapeCSV]
    rw [if_pos (by rw [List.getLast?_concat])]
    rw [List.dropLast_concat, collapseQuotes_doubleQuotes, String.mk_data]
  · simp only [escapeCSV, if_neg hq]
    have hq' : '"' ∉ s.data := fun hmem => hq (needsQuoting_of_mem_quote hmem)
    unfold unescapeCSV
    split
    · next rest heq =>
      exact absurd (by rw [heq]; exact List.mem_cons_self _ _) hq'
    · rfl

/-- C8: `escapeCSV` wraps any field containing a comma, a double quote or a
newline in double quotes with internal quotes doubled, leaves other fields
unchanged, and un-escaping the escaped value reproduces the original field
exactly; in particular `"Washington, D.C."` is exported as a quoted field and
parses back to the original string. -/
theorem C8_escapeCSV_roundtrip :
    (∀ s : String, unescapeCSV (escapeCSV s) = s)
    ∧ (∀ s : String, needsQuoting s.data = false → escapeCSV s = s)
    ∧ escapeCSV "Washington, D.C." = "\"Washington, D.C.\""
    ∧ unescapeCSV "\"Washington, D.C.\"" = "Washington, D.C." :=
  ⟨unescapeCSV_escapeCSV,
   fun s h => by simp [escapeCSV, h],
   by decide,
   by decide⟩

/-- C9: the unit round-trip applied to this-weekend forecast temperatures,
`x ↦ ((((x − 32) · 5) / 9) · 9) / 5 + 32`, is the identity over exact
rational arithmetic: before rounding it is a mathematical no-op on the
provider's Fahrenheit value. -/
theorem C9_fahrenheitRoundTrip_id : ∀ x : ℚ, fahrenheitRoundTrip x = x := by
  intro x
  unfold fahrenheitRoundTrip
  ring

/-- C3 counterexample: a forecast-range response with HTTP status 401 is
mapped to the generic `Forecast API Error 401` message, not to the
"invalid API key" error the claim requires for status 401. -/
theorem C3_counterexample :
    fetchWeekendChecks 200 401 = .error ("Forecast API Error " ++ toString 401)
    ∧ "Forecast API Error " ++ toString 401 ≠ invalidApiKeyMsg := by
  refine ⟨rfl, ?_⟩
  decide

/-- C3 (amended): for each ZIP, the historical-range query maps HTTP 401 to
the "invalid API key" error, 429 to "rate limit exceeded", 400 to
"invalid ZIP code or date range" and any other non-2xx status to a generic
error tagged with the status code, while the forecast-range query maps every
non-2xx status (including 401/429/400) to the generic
`Forecast API Error {status}` message. -/
theorem C3_status_mapping (hs fs : Nat) :
    (responseOk hs = false →
      fetchWeekendChecks hs fs =
        .error (if hs = 401 then invalidApiKeyMsg
          else if hs = 429 then rateLimitMsg
          else if hs = 400 then invalidZipOrDateMsg
          else "Historical API Error " ++ toString hs))
    ∧ (responseOk hs = true → responseOk fs = false →
        fetchWeekendChecks hs fs = .error ("Forecast API Error " ++ toString fs)) := by
  constructor
  · intro h
    simp [fetchWeekendChecks, h, historicalStatusError]
  · intro h1 h2
    simp [fetchWeekendChecks, h1, h2, forecastStatusError]

theorem C3_status_mapping_witness :
    responseOk 503 = false ∧ responseOk 200 = true ∧ responseOk 429 = false
    ∧ fetchWeekendChecks 503 200 =
        .error (if 503 = 401 then invalidApiKeyMsg
          else if 503 = 429 then rateLimitMsg
          else if 503 = 400 then invalidZipOrDateMsg
          else "Historical API Error " ++ toString 503)
    ∧ fetchWeekendChecks 200 429 = .error ("Forecast API Error " ++ toString 429) :=
  ⟨by decide, by decide, by decide,
   (C3_status_mapping 503 200).1 (by decide),
   (C3_status_mapping 200 429).2 (by decide) (by decide)⟩

theorem C8_escapeCSV_roundtrip_witness :
    unescapeCSV (escapeCSV "hello") = "hello"
    ∧ needsQuoting ("hello" : String).data = false
    ∧ escapeCSV "hello" = "hello" :=
  ⟨(C8_escapeCSV_roundtrip).1 "hello", by decide,
   (C8_escapeCSV_roundtrip).2.1 "hello" (by decide)⟩

/-! ## The sequential fetch loop of `startFetching` (weekend variant,
lines 600-650) and `stopFetching` (lines 683-686)

The loop `for (const zipCode of zipList) { ... }` is embedded as a left fold
over the ZIP list.  The per-ZIP work (the network call
`fetchWeekendWeatherForZip`, or `generateSampleWeekendData` in test mode) is
abstracted as a function `fetchFn : String → Except String (Option α)`:
`.error msg` models a thrown exception (caught by the inner `try`/`catch`),
`.ok none` models a `null` result, `.ok (some r)` a successful record.  The
body of the loop appends log entries and results exactly as the source does;
crucially, it contains no test of `isProcessing` or of any other
cancellation flag — the source loop body (lines 602-649) reads no such flag
either. -/

/-- One log line of the weekend variant's fetch loop, without the
`toLocaleTimeString` prefix added by `addLog`. -/
inductive LogEntry (α : Type) where
  | processing (zip : String)
  | success (zip : String) (r : α)
  | noData (zip : String)
  | failure (zip : String) (msg : String)
  | stopped
  deriving DecidableEq

/-- The mutable state touched by `startFetching`'s loop and `stopFetching`:
the `isProcessing` flag, the log, the accumulated results and the
`errors`/`completed` counters. -/
structure LoopState (α : Type) where
  isProcessing : Bool
  logs : List (LogEntry α)
  results : List α
  errors : Nat
  completed : Nat
  deriving DecidableEq

/-- The body of `for (const zipCode of zipList)` in `startFetching`
(lines 602-649): log "Processing ...", run the fetch, then append the
result / log the failure and bump the counters.  The body never reads
`isProcessing`. -/
def processZip {α : Type} (fetchFn : String → Except String (Option α))
    (s : LoopState α) (zip : String) : LoopState α :=
  let s1 := { s with logs := s.logs ++ [LogEntry.processing zip] }
  let s2 :=
    match fetchFn zip with
    | .ok (some r) =>
      { s1 with results := s1.results ++ [r], logs := s1.logs ++ [LogEntry.success zip r] }
    | .ok none =>
      { s1 with logs := s1.logs ++ [LogEntry.noData zip], errors := s1.errors + 1 }
    | .error msg =>
      { s1 with logs := s1.logs ++ [LogEntry.failure zip msg], errors := s1.errors + 1 }
  { s2 with completed := s2.completed + 1 }

/-- The sequential fetch loop of `startFetching`: a strict left-to-right
iteration over the ZIP list. -/
def fetchLoop {α : Type} (fetchFn : String → Except String (Option α))
    (s : LoopState α) (zips : List String) : LoopState α :=
  zips.foldl (processZip fetchFn) s

/-- Embedding of `stopFetching` (lines 683-686): set `isProcessing` to
`false` and log "Process stopped by user".  Nothing else happens: no flag
that the loop reads is set, and no request is aborted. -/
def stopFetching {α : Type} (s : LoopState α) : LoopState α :=
  { s with isProcessing := false, logs := s.logs ++ [LogEntry.stopped] }

/-- The state at the start of a run (`isProcessing` just set to `true`,
logs/results/counters cleared). -/
def initialLoopState (α : Type) : LoopState α :=
  { isProcessing := true, logs := [], results := [], errors := 0, completed := 0 }

/-- C2: evaluation of the code at the failing scenario.  Run the loop on the
first ZIP, trigger `stopFetching` (so `isProcessing = false`), then continue
the remaining iterations exactly as the un-interrupted source loop does: the
two remaining ZIP codes are still processed, their results are appended and
`completed` reaches 3.  The flag flipped by the stop action is never checked
between ZIP iterations, contradicting the claim that no further ZIP code is
processed once the flag is set. -/
theorem C2_stop_does_not_stop :
    (stopFetching (fetchLoop (fun _ => Except.ok (some 0))
        (initialLoopState Nat) ["10001"])).isProcessing = false
    ∧ (fetchLoop (fun _ => Except.ok (some 0))
        (stopFetching (fetchLoop (fun _ => Except.ok (some 0))
          (initialLoopState Nat) ["10001"])) ["90210", "60601"]).completed = 3
    ∧ (fetchLoop (fun _ => Except.ok (some 0))
        (stopFetching (fetchLoop (fun _ => Except.ok (some 0))
          (initialLoopState Nat) ["10001"])) ["90210", "60601"]).results.length = 3
    ∧ LogEntry.processing "90210" ∈
        (fetchLoop (fun _ => Except.ok (some 0))
          (stopFetching (fetchLoop (fun _ => Except.ok (some 0))
            (initialLoopState Nat) ["10001"])) ["90210", "60601"]).logs
    ∧ LogEntry.processing "60601" ∈
        (fetchLoop (fun _ => Except.ok (some 0))
          (stopFetching (fetchLoop (fun _ => Except.ok (some 0))
            (initialLoopState Nat) ["10001"])) ["90210", "60601"]).logs := by
  decide

/-- C7: in the sequential fetch loop, a failure on one ZIP does not abort
the run: for 3 ZIP codes where the 2nd fails (e.g. with the 429 rate-limit
error), the result list contains exactly the records of ZIP 1 and ZIP 3 in
order, an error log entry is recorded for ZIP 2, and all three iterations
run to completion. -/
theorem C7_partial_failure {α : Type} (fetchFn : String → Except String (Option α))
    (z1 z2 z3 : String) (r1 r3 : α) (e : String)
    (h1 : fetchFn z1 = .ok (some r1))
    (h2 : fetchFn z2 = .error e)
    (h3 : fetchFn z3 = .ok (some r3)) :
    (fetchLoop fetchFn (initialLoopState α) [z1, z2, z3]).results = [r1, r3]
    ∧ LogEntry.failure z2 e ∈ (fetchLoop fetchFn (initialLoopState α) [z1, z2, z3]).logs
    ∧ (fetchLoop fetchFn (initialLoopState α) [z1, z2, z3]).completed = 3 := by
  simp [fetchLoop, processZip, h1, h2, h3, initialLoopState]

theorem C7_partial_failure_witness :
    ((fun z => if z = "60601" then Except.error rateLimitMsg
        else if z = "10001" then Except.ok (some 71)
        else Except.ok (some (33 : Nat))) "10001" = Except.ok (some 71))
    ∧ ((fun z => if z = "60601" then Except.error rateLimitMsg
        else if z = "10001" then Except.ok (some 71)
        else Except.ok (some (33 : Nat))) "60601" = Except.error rateLimitMsg)
    ∧ ((fun z => if z = "60601" then Except.error rateLimitMsg
        else if z = "10001" then Except.ok (some 71)
        else Except.ok (some (33 : Nat))) "33101" = Except.ok (some 33))
    ∧ (fetchLoop (fun z => if z = "60601" then Except.error rateLimitMsg
        else if z = "10001" then Except.ok (some 71)
        else Except.ok (some (33 : Nat)))
        (initialLoopState Nat) ["10001", "60601", "33101"]).results = [71, 33]
    ∧ LogEntry.failure "60601" rateLimitMsg ∈
        (fetchLoop (fun z => if z = "60601" then Except.error rateLimitMsg
          else if z = "10001" then Except.ok (some 71)
          else Except.ok (some (33 : Nat)))
          (initialLoopState Nat) ["10001", "60601", "33101"]).logs
    ∧ (fetchLoop (fun z => if z = "60601" then Except.error rateLimitMsg
        else if z = "10001" then Except.ok (some 71)
        else Except.ok (some (33 : Nat)))
        (initialLoopState Nat) ["10001", "60601", "33101"]).completed = 3 := by
  refine ⟨by rfl, by rfl, by rfl, ?_, ?_, ?_⟩
  · exact (C7_partial_failure _ "10001" "60601" "33101" 71 33 rateLimitMsg
      (by rfl) (by rfl) (by rfl)).1
  · exact (C7_partial_failure _ "10001" "60601" "33101" 71 33 rateLimitMsg
      (by rfl) (by rfl) (by rfl)).2.1
  · exact (C7_partial_failure _ "10001" "60601" "33101" 71 33 rateLimitMsg
      (by rfl) (by rfl) (by rfl)).2.2

/-! ## ZIP validation of the standard variant (`src/app/page.tsx`)

`validateZipCodes` splits the textarea on the regex `[\n,\s]+`, trims each
piece and drops empties; `validateAndCleanZipCodes` tests each token against
`^\d{5}(-\d{4})?$`, strips a `+4` extension, deduplicates valid codes
preserving first-seen order and collects offending tokens; `handleSubmit`
rejects the whole submission when any offending token exists.

JavaScript's `\s` and `trim()` whitespace classes are modelled by the ASCII
whitespace characters (space, tab, newline, carriage return, vertical tab,
form feed); the Unicode space characters they additionally contain do not
occur in ZIP input.  Splitting on a *run* of separators and then dropping
empty/whitespace-only pieces is equivalently modelled by splitting at every
single separator character and then trimming and dropping empty pieces, as
the source itself does with `.map(zip => zip.trim()).filter(...)`. -/

/-- ASCII part of JavaScript's `\s` / `trim()` whitespace class. -/
def wsChar (c : Char) : Bool :=
  c == ' ' || c == '\t' || c == '\n' || c == '\r' || c == '\x0b' || c == '\x0c'

/-- A separator of the split regex `[\n,\s]+`: whitespace or comma. -/
def sepChar (c : Char) : Bool := wsChar c || c == ','

/-- `String.prototype.trim`: drop leading and trailing whitespace. -/
def jsTrimChars (cs : List Char) : List Char :=
  ((cs.dropWhile wsChar).reverse.dropWhile wsChar).reverse

/-- `zip.trim()` on strings. -/
def jsTrim (s : String) : String := String.mk (jsTrimChars s.data)

/-- Split a character list at every separator character (empty pieces are
kept, as JavaScript's `split` keeps them for leading separators; they are
dropped by the `filter` below). -/
def splitFieldsAux (sep : Char → Bool) : List Char → List Char → List (List Char)
  | [], acc => [acc]
  | c :: cs, acc =>
    if sep c then acc :: splitFieldsAux sep cs []
    else splitFieldsAux sep cs (acc ++ [c])

def splitFields (sep : Char → Bool) (cs : List Char) : List (List Char) :=
  splitFieldsAux sep cs []

/-- The token pipeline of `validateZipCodes` (lines 104-111):
`zipString.split(/[\n,\s]+/).map(zip => zip.trim()).filter(zip => zip.length > 0)`. -/
def jsSplitTokens (s : String) : List String :=
  ((splitFields sepChar s.data).map (fun p => jsTrim (String.mk p))).filter
    (fun t => 0 < t.length)

/-- The regex `^\d{5}(-\d{4})?$` (`ZIP_CODE_REGEX`, line 17). -/
def isZipPattern (cs : List Char) : Bool :=
  match cs with
  | [a, b, c, d, e] =>
    a.isDigit && b.isDigit && c.isDigit && d.isDigit && e.isDigit
  | [a, b, c, d, e, dash, f, g, h, i] =>
    a.isDigit && b.isDigit && c.isDigit && d.isDigit && e.isDigit
      && dash == '-' && f.isDigit && g.isDigit && h.isDigit && i.isDigit
  | _ => false

/-- Embedding of `isValidZipCode` (lines 20-22): test the trimmed string
against `ZIP_CODE_REGEX`. -/
def isValidZipCode (zip : String) : Bool := isZipPattern (jsTrim zip).data

/-- `cleanZip.split('-')[0]`: the part before the first dash. -/
def takeBeforeDash (s : String) : String :=
  String.mk (s.data.takeWhile (fun c => ¬ (c == '-')))

/-- The `forEach` body of `validateAndCleanZipCodes` (lines 29-40), as a
left-to-right recursion with the `valid`/`invalid` accumulators: a nonempty
token matching the pattern contributes its 5-digit part to `valid` unless
already present; any other nonempty token is appended to `invalid`. -/
def vaczAux : List String → List String → List String → List String × List String
  | [], valid, invalid => (valid, invalid)
  | zip :: rest, valid, invalid =>
    let cleanZip := jsTrim zip
    if cleanZip ≠ "" ∧ isValidZipCode cleanZip = true then
      let fiveDigitZip := takeBeforeDash cleanZip
      if fiveDigitZip ∈ valid then vaczAux rest valid invalid
      else vaczAux rest (valid ++ [fiveDigitZip]) invalid
    else if cleanZip ≠ "" then vaczAux rest valid (invalid ++ [cleanZip])
    else vaczAux rest valid invalid

/-- Embedding of `validateAndCleanZipCodes` (lines 25-43). -/
def validateAndCleanZipCodes (zipCodes : List String) : List String × List String :=
  vaczAux zipCodes [] []

/-- Embedding of `validateZipCodes` (lines 104-111). -/
def validateZipCodes (zipString : String) : List String × List String :=
  validateAndCleanZipCodes (jsSplitTokens zipString)

/-- Outcome of the validation phase of `handleSubmit` (lines 113-151).
`submitted` stands for reaching the `fetch('... /api/fetch-weather')` POST
with exactly the given valid ZIP list; every other constructor is an early
return before any POST is issued. -/
inductive SubmitOutcome where
  | missingApiKey
  | missingZipCodes
  | invalidZips (invalid : List String)
  | noValidZips
  | submitted (zips : List String)
  deriving DecidableEq

/-- The validation phase of `handleSubmit`: API-key presence, ZIP-text
presence, then batch ZIP validation. -/
def handleSubmit (apiKey zipCodes : String) : SubmitOutcome :=
  if jsTrim apiKey = "" then .missingApiKey
  else if jsTrim zipCodes = "" then .missingZipCodes
  else
    let vi := validateZipCodes zipCodes
    if vi.2 ≠ [] then .invalidZips vi.2
    else if vi.1 = [] then .noValidZips
    else .submitted vi.1

theorem jsTrimChars_eq_nil_of_all_ws {cs : List Char} (h : ∀ c ∈ cs, wsChar c = true) :
    jsTrimChars cs = [] := by
  have h1 : cs.dropWhile wsChar = [] := List.dropWhile_eq_nil_iff.mpr h
  simp [jsTrimChars, h1]

theorem all_ws_of_jsTrimChars_eq_nil {cs : List Char} (h : jsTrimChars cs = []) :
    ∀ c ∈ cs, wsChar c = true := by
  have h1 : (cs.dropWhile wsChar).reverse.dropWhile wsChar = [] := by
    have h2 := congrArg List.reverse h
    simpa [jsTrimChars] using h2
  have h3 : ∀ c ∈ cs.dropWhile wsChar, wsChar c = true := by
    intro c hc
    exact List.dropWhile_eq_nil_iff.mp h1 c (List.mem_reverse.mpr hc)
  intro c hc
  rw [← List.takeWhile_append_dropWhile wsChar cs] at hc
  rcases List.mem_append.mp hc with h4 | h4
  · exact List.mem_takeWhile_imp h4
  · exact h3 c h4

theorem mem_of_mem_splitFieldsAux {sep : Char → Bool} :
    ∀ (cs acc p : List Char), p ∈ splitFieldsAux sep cs acc →
      ∀ c ∈ p, c ∈ acc ∨ c ∈ cs := by
  intro cs
  induction cs with
  | nil =>
    intro acc p hp c hc
    simp only [splitFieldsAux, List.mem_singleton] at hp
    subst hp
    exact Or.inl hc
  | cons x cs ih =>
    intro acc p hp c hc
    simp only [splitFieldsAux] at hp
    by_cases hx : sep x = true
    · rw [if_pos hx] at hp
      rcases List.mem_cons.mp hp with h | h
      · subst h
        exact Or.inl hc
      · rcases ih [] p h c hc with h' | h'
        · simp at h'
        · exact Or.inr (List.mem_cons_of_mem _ h')
    · rw [if_neg hx] at hp
      rcases ih (acc ++ [x]) p hp c hc with h' | h'
      · rcases List.mem_append.mp h' with h2 | h2
        · exact Or.inl h2
        · simp only [List.mem_singleton] at h2
          subst h2
          exact Or.inr (List.mem_cons_self _ _)
      · exact Or.inr (List.mem_cons_of_mem _ h')

theorem jsTrim_ne_empty_of_tokens_ne_nil {s : String} (h : jsSplitTokens s ≠ []) :
    jsTrim s ≠ "" := by
  obtain ⟨t, ht⟩ := List.exists_mem_of_ne_nil _ h
  have ht' := List.mem_filter.mp ht
  obtain ⟨p, hp, hpt⟩ := List.mem_map.mp ht'.1
  have hlen : 0 < t.length := by simpa using ht'.2
  have htd : t.data = jsTrimChars p := by
    rw [← hpt]
    rfl
  have hne : jsTrimChars p ≠ [] := by
    intro hnil
    rw [hnil] at htd
    have : t.length = 0 := by
      show t.data.length = 0
      rw [htd]
      rfl
    omega
  have hex : ∃ c ∈ p, wsChar c = false := by
    by_contra hall
    push_neg at hall
    refine hne (jsTrimChars_eq_nil_of_all_ws ?_)
    intro c hc
    have := hall c hc
    revert this
    cases wsChar c <;> simp
  obtain ⟨c, hcp, hcw⟩ := hex
  have hcs : c ∈ s.data := by
    rcases mem_of_mem_splitFieldsAux s.data [] p hp c hcp with h' | h'
    · simp at h'
    · exact h'
  intro heq
  have hnil : jsTrimChars s.data = [] := congrArg String.data heq
  have := all_ws_of_jsTrimChars_eq_nil hnil c hcs
  rw [hcw] at this
  exact Bool.false_ne_true this

theorem invalid_nonempty_imp_trim_ne (zipCodes : String)
    (h : (validateZipCodes zipCodes).2 ≠ []) : jsTrim zipCodes ≠ "" := by
  apply jsTrim_ne_empty_of_tokens_ne_nil
  intro htok
  apply h
  simp [validateZipCodes, htok, validateAndCleanZipCodes, vaczAux]

/-- C6: if any nonempty input token fails `^\d{5}(-\d{4})?$`, the whole
submission is rejected — no POST is issued and no token accepted — and
exactly the offending tokens are reported; for the input
`"12345\nabcde\n67890"` the reported invalid list is exactly `["abcde"]`. -/
theorem C6_batch_validation :
    (∀ apiKey zipCodes : String, jsTrim apiKey ≠ "" →
      (validateZipCodes zipCodes).2 ≠ [] →
      handleSubmit apiKey zipCodes = SubmitOutcome.invalidZips (validateZipCodes zipCodes).2)
    ∧ validateZipCodes "12345\nabcde\n67890" = (["12345", "67890"], ["abcde"])
    ∧ handleSubmit "key" "12345\nabcde\n67890" = SubmitOutcome.invalidZips ["abcde"] := by
  refine ⟨?_, by decide, by decide⟩
  intro apiKey zipCodes hA hZtrim
  have hZ : jsTrim zipCodes ≠ "" := invalid_nonempty_imp_trim_ne zipCodes hZtrim
  simp [handleSubmit, hA, hZ, hZtrim]

theorem C6_batch_validation_witness :
    jsTrim "key" ≠ "" ∧ (validateZipCodes "12345\nabcde\n67890").2 ≠ []
    ∧ handleSubmit "key" "12345\nabcde\n67890" =
        SubmitOutcome.invalidZips (validateZipCodes "12345\nabcde\n67890").2 :=
  ⟨by decide, by decide,
   C6_batch_validation.1 "key" "12345\nabcde\n67890" (by decide) (by decide)⟩

/-! ## `generateAllZipCodesForState` (weekend variant, lines 140-243)

The `zipRanges` object literal is modelled as an association list; lookup by
state code models the JavaScript property access.  `[...new Set(zips)]`
keeps the first occurrence of each string in insertion order; since the
result is then sorted, any correct sorting of the deduplicated set gives the
JavaScript result (all elements are ASCII digit strings, where the UTF-16
code-unit order used by `Array.prototype.sort` coincides with Lean's
`String` order). -/

def zipRangesList : List (String × Nat × Nat) :=
  [("AL", 35004, 36925), ("AK", 99501, 99950), ("AZ", 85001, 86556),
   ("AR", 71601, 72959), ("CA", 90001, 96162), ("CO", 80001, 81658),
   ("CT", 6001, 6928), ("DE", 19701, 19980), ("FL", 32003, 34997),
   ("GA", 30002, 31999), ("HI", 96701, 96898), ("ID", 83201, 83877),
   ("IL", 60001, 62999), ("IN", 46001, 47997), ("IA", 50001, 52809),
   ("KS", 66002, 67954), ("KY", 40003, 42788), ("LA", 70001, 71497),
   ("ME", 3901, 4992), ("MD", 20601, 21930), ("MA", 1001, 5544),
   ("MI", 48001, 49971), ("MN", 55001, 56763), ("MS", 38601, 39776),
   ("MO", 63001, 65899), ("MT", 59001, 59937), ("NE", 68001, 69367),
   ("NV", 89001, 89883), ("NH", 3031, 3897), ("NJ", 7001, 8989),
   ("NM", 87001, 88441), ("NY", 10001, 14925), ("NC", 27006, 28909),
   ("ND", 58001, 58856), ("OH", 43001, 45999), ("OK", 73001, 74966),
   ("OR", 97001, 97920), ("PA", 15001, 19640), ("RI", 2801, 2940),
   ("SC", 29001, 29945), ("SD", 57001, 57799), ("TN", 37010, 38589),
   ("TX", 73301, 88595), ("UT", 84001, 84791), ("VT", 5001, 5907),
   ("VA", 20101, 24658), ("WA", 98001, 99403), ("WV", 24701, 26886),
   ("WI", 53001, 54990), ("WY", 82001, 83128)]

/-- `zipRanges[stateCode]`: property lookup in the object literal. -/
def zipRanges (stateCode : String) : Option (Nat × Nat) :=
  (zipRangesList.find? (fun e => e.1 == stateCode)).map (fun e => e.2)

/-- The hard-coded padding condition of lines 203-210: the state code is one
of CT, MA, ME, NH, RI, VT.  (NJ, whose range 7001-8989 also starts below
10000, is absent from this list.) -/
def isPaddedState (stateCode : String) : Bool :=
  stateCode == "CT" || stateCode == "MA" || stateCode == "ME"
    || stateCode == "NH" || stateCode == "RI" || stateCode == "VT"

/-- `zipStr.padStart(5, "0")`. -/
def padStart5 (s : String) : String :=
  String.mk (List.replicate (5 - s.length) '0' ++ s.data)

/-- The loop body of lines 200-214: `zip.toString()`, zero-padded for the
six hard-coded states. -/
def natToZipString (stateCode : String) (zip : Nat) : String :=
  let zipStr := toString zip
  if isPaddedState stateCode then padStart5 zipStr else zipStr

/-- The extra ranges pushed for NY, CA and TX (lines 217-239). -/
def extraZips (stateCode : String) : List String :=
  (if stateCode == "NY" then
    (List.range' 10001 (11697 + 1 - 10001)).map (fun z => toString z)
  else [])
  ++ (if stateCode == "CA" then
    (List.range' 93001 (96162 + 1 - 93001)).map (fun z => toString z)
  else [])
  ++ (if stateCode == "TX" then
    (List.range' 75001 (79999 + 1 - 75001)).map (fun z => toString z)
    ++ (List.range' 77001 (77999 + 1 - 77001)).map (fun z => toString z)
  else [])

/-- `[...new Set(zips)]`: deduplication keeping the first occurrence of each
string in insertion order. -/
def setDedup : List String → List String
  | [] => []
  | x :: xs => x :: setDedup (xs.filter (fun y => !(y == x)))
termination_by l => l.length
decreasing_by
  simp only [List.length_cons]
  exact Nat.lt_succ_of_le (List.length_filter_le _ _)

/-- Embedding of `generateAllZipCodesForState` (lines 140-243): enumerate
the state's inclusive numeric range, format each number, append the extra
ranges for NY/CA/TX, then deduplicate and sort. -/
def generateAllZipCodesForState (stateCode : String) : List String :=
  match zipRanges stateCode with
  | none => []
  | some (s, e) =>
    let zips := (List.range' s (e + 1 - s)).map (natToZipString stateCode)
      ++ extraZips stateCode
    List.insertionSort (· ≤ ·) (setDedup zips)

/-- The regex `/^\d{5}$/` of the claim: exactly five decimal digits. -/
def isFiveDigitString (s : String) : Bool :=
  s.data.length == 5 && s.data.all Char.isDigit

theorem mem_setDedup_of_le (a : String) :
    ∀ (n : Nat) (l : List String), l.length ≤ n → (a ∈ setDedup l ↔ a ∈ l) := by
  intro n
  induction n with
  | zero =>
    intro l hl
    have : l = [] := List.eq_nil_of_length_eq_zero (Nat.le_zero.mp hl)
    subst this
    simp [setDedup]
  | succ n ih =>
    intro l hl
    cases l with
    | nil => simp [setDedup]
    | cons x xs =>
      have hx : setDedup (x :: xs) = x :: setDedup (xs.filter (fun y => !(y == x))) := by
        simp [setDedup]
      rw [hx]
      have hlen : (xs.filter (fun y => !(y == x))).length ≤ n := by
        have := List.length_filter_le (fun y => !(y == x)) xs
        simp only [List.length_cons] at hl
        omega
      by_cases hax : a = x
      · subst hax
        simp
      · simp only [List.mem_cons, ih _ hlen, List.mem_filter]
        constructor
        · rintro (h | ⟨h, _⟩)
          · exact Or.inl h
          · exact Or.inr h
        · rintro (h | h)
          · exact Or.inl h
          · refine Or.inr ⟨h, ?_⟩
            simp [hax]

theorem mem_setDedup (a : String) (l : List String) : a ∈ setDedup l ↔ a ∈ l :=
  mem_setDedup_of_le a l.length l (Nat.le_refl _)

/-- C1: evaluation of the code at the failing input.  For state code "NJ"
(numeric range 7001-8989, starting below 10000) the generated list contains
the unpadded four-character string `"7001"`, which does not match
`/^\d{5}$/`. -/
theorem C1_NJ_unpadded :
    "7001" ∈ generateAllZipCodesForState "NJ"
    ∧ isFiveDigitString "7001" = false := by
  constructor
  · have hgen : generateAllZipCodesForState "NJ"
        = List.insertionSort (fun a b => a ≤ b)
            (setDedup ((List.range' 7001 (8989 + 1 - 7001)).map (natToZipString "NJ")
              ++ extraZips "NJ")) := by
      rfl
    rw [hgen, List.mem_insertionSort, mem_setDedup]
    refine List.mem_append_left _ (List.mem_map.mpr ⟨7001, ?_, ?_⟩)
    · rw [List.mem_range'_1]
      exact ⟨Nat.le_refl _, by norm_num⟩
    · rfl
  · decide

/-! ## `getWeekendDates` (weekend variant, lines 268-338)

JavaScript `Date` values are modelled by proleptic-Gregorian civil triples
(year, month 1-12, day-of-month).  `date.setDate(n)` re-normalizes an
overflowing day-of-month into the following months; every call site in
`getWeekendDates` uses `base.getDate() + k` with `0 ≤ k ≤ 7`, so at most one
month boundary is crossed and the single-roll normalization below is exact.
`date.setFullYear(y)` keeps month and day-of-month and re-normalizes; from a
valid date the only reachable overflow is Feb 29 of a leap year mapping to
Mar 1 when the target year is not a leap year.  `date.getDay()` (0 =
Sunday) is computed from the civil triple with Sakamoto's method. -/

structure CivilDate where
  year : Int
  month : Nat
  day : Nat
  deriving DecidableEq

/-- Gregorian leap-year rule (as implemented by JavaScript `Date`). -/
def isLeapYear (y : Int) : Bool :=
  y % 4 == 0 && (y % 100 != 0 || y % 400 == 0)

/-- Length of a month (month numbered 1-12). -/
def daysInMonth (y : Int) (m : Nat) : Nat :=
  match m with
  | 1 => 31
  | 2 => if isLeapYear y then 29 else 28
  | 3 => 31
  | 4 => 30
  | 5 => 31
  | 6 => 30
  | 7 => 31
  | 8 => 31
  | 9 => 30
  | 10 => 31
  | 11 => 30
  | 12 => 31
  | _ => 30

/-- A normalized civil date, as held by a JavaScript `Date`. -/
def validDate (d : CivilDate) : Bool :=
  decide (1 ≤ d.month) && decide (d.month ≤ 12)
    && decide (1 ≤ d.day) && decide (d.day ≤ daysInMonth d.year d.month)

/-- The successor day in the civil calendar. -/
def nextDay (d : CivilDate) : CivilDate :=
  if d.day < daysInMonth d.year d.month then ⟨d.year, d.month, d.day + 1⟩
  else if d.month < 12 then ⟨d.year, d.month + 1, 1⟩
  else ⟨d.year + 1, 1, 1⟩

/-- Adding `k` calendar days. -/
def addDays (k : Nat) (d : CivilDate) : CivilDate := nextDay^[k] d

/-- `Date.prototype.getDay` (0 = Sunday, ..., 6 = Saturday), computed from
the civil triple with Sakamoto's method. -/
def dayOfWeek (d : CivilDate) : Nat :=
  let t : List Int := [0, 3, 2, 5, 0, 3, 5, 1, 4, 6, 2, 4]
  let y : Int := if d.month < 3 then d.year - 1 else d.year
  ((y + y.fdiv 4 - y.fdiv 100 + y.fdiv 400 + t.getD (d.month - 1) 0 + (d.day : Int)).emod 7).toNat

/-- The `if`/`else` chain of lines 275-296 computing `daysUntilFriday` from
`today.getDay()`. -/
def daysUntilFriday (currentDay : Nat) : Nat :=
  if currentDay = 0 then 5
  else if currentDay = 1 then 4
  else if currentDay = 2 then 3
  else if currentDay = 3 then 2
  else if currentDay = 4 then 1
  else if currentDay = 5 then 0
  else 6

/-- Modelled from the spec: the weekday table of the claim (Sunday→+5,
Monday→+4, Tuesday→+3, Wednesday→+2, Thursday→+1, Friday→+0, Saturday→+6). -/
def weekendOffsetTable (wd : Nat) : Nat :=
  match wd with
  | 0 => 5
  | 1 => 4
  | 2 => 3
  | 3 => 2
  | 4 => 1
  | 5 => 0
  | _ => 6

/-- `x.setDate(n)` for `1 ≤ n ≤ daysInMonth + 28` (the only arguments
produced by `getWeekendDates`): place `n` in the current month, rolled over
at most once into the following month. -/
def setDateJS (d : CivilDate) (n : Nat) : CivilDate :=
  if n ≤ daysInMonth d.year d.month then ⟨d.year, d.month, n⟩
  else if d.month < 12 then ⟨d.year, d.month + 1, n - daysInMonth d.year d.month⟩
  else ⟨d.year + 1, 1, n - daysInMonth d.year d.month⟩

/-- `x.setFullYear(y)`: keep month and day-of-month, re-normalizing an
overflowing day into the next month (from a valid date only Feb 29 → Mar 1
is reachable). -/
def setFullYearJS (d : CivilDate) (y : Int) : CivilDate :=
  if d.day ≤ daysInMonth y d.month then ⟨y, d.month, d.day⟩
  else if d.month < 12 then ⟨y, d.month + 1, d.day - daysInMonth y d.month⟩
  else ⟨y + 1, 1, d.day - daysInMonth y d.month⟩

/-- The nine dates returned by `getWeekendDates`. -/
structure WeekendDates where
  thisFriday : CivilDate
  thisSaturday : CivilDate
  thisSunday : CivilDate
  nextFriday : CivilDate
  nextSaturday : CivilDate
  nextSunday : CivilDate
  lastYearFriday : CivilDate
  lastYearSaturday : CivilDate
  lastYearSunday : CivilDate
  deriving DecidableEq

/-- Embedding of `getWeekendDates` (lines 268-338). -/
def getWeekendDates (today : CivilDate) : WeekendDates :=
  let currentDay := dayOfWeek today
  let duf := daysUntilFriday currentDay
  let thisFriday := setDateJS today (today.day + duf)
  let thisSaturday := setDateJS thisFriday (thisFriday.day + 1)
  let thisSunday := setDateJS thisFriday (thisFriday.day + 2)
  let nextFriday := setDateJS thisFriday (thisFriday.day + 7)
  let nextSaturday := setDateJS nextFriday (nextFriday.day + 1)
  let nextSunday := setDateJS nextFriday (nextFriday.day + 2)
  { thisFriday := thisFriday
    thisSaturday := thisSaturday
    thisSunday := thisSunday
    nextFriday := nextFriday
    nextSaturday := nextSaturday
    nextSunday := nextSunday
    lastYearFriday := setFullYearJS thisFriday (thisFriday.year - 1)
    lastYearSaturday := setFullYearJS thisSaturday (thisSaturday.year - 1)
    lastYearSunday := setFullYearJS thisSunday (thisSunday.year - 1) }

theorem daysInMonth_bounds (y : Int) (m : Nat) (h1 : 1 ≤ m) (h2 : m ≤ 12) :
    28 ≤ daysInMonth y m ∧ daysInMonth y m ≤ 31 := by
  interval_cases m <;> simp only [daysInMonth] <;> try split
  all_goals omega

theorem validDate_iff {d : CivilDate} :
    validDate d = true ↔
      1 ≤ d.month ∧ d.month ≤ 12 ∧ 1 ≤ d.day ∧ d.day ≤ daysInMonth d.year d.month := by
  simp [validDate, Bool.and_eq_true, decide_eq_true_eq, and_assoc]

theorem validDate_nextDay {d : CivilDate} (h : validDate d = true) :
    validDate (nextDay d) = true := by
  obtain ⟨hm1, hm12, hd1, hdim⟩ := validDate_iff.mp h
  have hb := daysInMonth_bounds d.year d.month hm1 hm12
  unfold nextDay
  by_cases hc1 : d.day < daysInMonth d.year d.month
  · rw [if_pos hc1, validDate_iff]
    exact ⟨hm1, hm12, by show 1 ≤ d.day + 1; omega,
      by show d.day + 1 ≤ daysInMonth d.year d.month; omega⟩
  · rw [if_neg hc1]
    by_cases hc2 : d.month < 12
    · rw [if_pos hc2, validDate_iff]
      have hb2 := daysInMonth_bounds d.year (d.month + 1) (by omega) (by omega)
      exact ⟨by show 1 ≤ d.month + 1; omega, by show d.month + 1 ≤ 12; omega,
        Nat.le_refl 1, by show 1 ≤ daysInMonth d.year (d.month + 1); omega⟩
    · rw [if_neg hc2, validDate_iff]
      exact ⟨Nat.le_refl 1, by show (1 : Nat) ≤ 12; omega, Nat.le_refl 1,
        by show 1 ≤ daysInMonth (d.year + 1) 1; simp [daysInMonth]⟩

theorem validDate_addDays {d : CivilDate} (h : validDate d = true) (k : Nat) :
    validDate (addDays k d) = true := by
  induction k with
  | zero => exact h
  | succ k ih =>
    unfold addDays at *
    rw [Function.iterate_succ_apply']
    exact validDate_nextDay ih

theorem setDateJS_self {d : CivilDate} (h : validDate d = true) :
    setDateJS d d.day = d := by
  obtain ⟨hm1, hm12, hd1, hdim⟩ := validDate_iff.mp h
  unfold setDateJS
  rw [if_pos hdim]

theorem setDateJS_succ {d : CivilDate} {n : Nat} (hv : validDate d = true)
    (h1 : d.day ≤ n) (h2 : n + 1 ≤ daysInMonth d.year d.month + 28) :
    setDateJS d (n + 1) = nextDay (setDateJS d n) := by
  obtain ⟨hm1, hm12, hd1, hdim⟩ := validDate_iff.mp hv
  have hb := daysInMonth_bounds d.year d.month hm1 hm12
  by_cases hc1 : n + 1 ≤ daysInMonth d.year d.month
  · have hc0 : n ≤ daysInMonth d.year d.month := by omega
    simp only [setDateJS, if_pos hc1, if_pos hc0]
    have hstep : nextDay ⟨d.year, d.month, n⟩ = ⟨d.year, d.month, n + 1⟩ := by
      unfold nextDay
      rw [if_pos (show n < daysInMonth d.year d.month by omega)]
    rw [hstep]
  · by_cases hc0 : n ≤ daysInMonth d.year d.month
    · -- n equals the month length: the successor crosses the month boundary
      by_cases hm : d.month < 12
      · simp only [setDateJS, if_neg hc1, if_pos hm, if_pos hc0]
        have hstep : nextDay ⟨d.year, d.month, n⟩ = ⟨d.year, d.month + 1, 1⟩ := by
          unfold nextDay
          rw [if_neg (show ¬ n < daysInMonth d.year d.month by omega),
            if_pos (show d.month < 12 from hm)]
        rw [hstep]
        simp only [CivilDate.mk.injEq]
        exact ⟨trivial, trivial, by omega⟩
      · simp only [setDateJS, if_neg hc1, if_neg hm, if_pos hc0]
        have hstep : nextDay ⟨d.year, d.month, n⟩ = ⟨d.year + 1, 1, 1⟩ := by
          unfold nextDay
          rw [if_neg (show ¬ n < daysInMonth d.year d.month by omega),
            if_neg (show ¬ d.month < 12 from hm)]
        rw [hstep]
        simp only [CivilDate.mk.injEq]
        exact ⟨trivial, trivial, by omega⟩
    · -- already rolled over: both values land in the following month
      by_cases hm : d.month < 12
      · have hb2 := daysInMonth_bounds d.year (d.month + 1) (by omega) (by omega)
        simp only [setDateJS, if_neg hc1, if_neg hc0, if_pos hm]
        have hstep : nextDay ⟨d.year, d.month + 1, n - daysInMonth d.year d.month⟩
            = ⟨d.year, d.month + 1, n - daysInMonth d.year d.month + 1⟩ := by
          unfold nextDay
          rw [if_pos (show n - daysInMonth d.year d.month
            < daysInMonth d.year (d.month + 1) by omega)]
        rw [hstep]
        simp only [CivilDate.mk.injEq]
        exact ⟨trivial, trivial, by omega⟩
      · have hjan : daysInMonth (d.year + 1) 1 = 31 := rfl
        simp only [setDateJS, if_neg hc1, if_neg hc0, if_neg hm]
        have hstep : nextDay ⟨d.year + 1, 1, n - daysInMonth d.year d.month⟩
            = ⟨d.year + 1, 1, n - daysInMonth d.year d.month + 1⟩ := by
          unfold nextDay
          rw [if_pos (show n - daysInMonth d.year d.month
            < daysInMonth (d.year + 1) 1 by omega)]
        rw [hstep]
        simp only [CivilDate.mk.injEq]
        exact ⟨trivial, trivial, by omega⟩

theorem setDateJS_add {d : CivilDate} (hv : validDate d = true) {k : Nat} (hk : k ≤ 28) :
    setDateJS d (d.day + k) = addDays k d := by
  induction k with
  | zero => exact setDateJS_self hv
  | succ k ih =>
    obtain ⟨hm1, hm12, hd1, hdim⟩ := validDate_iff.mp hv
    rw [show d.day + (k + 1) = (d.day + k) + 1 by omega]
    rw [setDateJS_succ hv (by omega) (by omega)]
    rw [ih (by omega)]
    unfold addDays
    rw [Function.iterate_succ_apply']

theorem daysInMonth_indep {y y' : Int} {m : Nat} (hm : m ≠ 2) :
    daysInMonth y m = daysInMonth y' m := by
  unfold daysInMonth
  rcases m with _|_|_|_|_|_|_|_|_|_|_|_|_|m
  all_goals first
  | rfl
  | exact absurd rfl hm

theorem feb_daysInMonth_le (y : Int) : daysInMonth y 2 ≤ 29 := by
  cases h : isLeapYear y <;> simp [daysInMonth, h]

theorem feb_daysInMonth_ge (y : Int) : 28 ≤ daysInMonth y 2 := by
  cases h : isLeapYear y <;> simp [daysInMonth, h]

theorem setFullYearJS_comp {d : CivilDate} (hv : validDate d = true)
    (h : ¬ (d.month = 2 ∧ d.day = 29)) (y : Int) :
    setFullYearJS d y = ⟨y, d.month, d.day⟩ := by
  obtain ⟨hm1, hm12, hd1, hdim⟩ := validDate_iff.mp hv
  unfold setFullYearJS
  rw [if_pos ?hle]
  case hle =>
    by_cases hm2 : d.month = 2
    · have hd29 : d.day ≠ 29 := fun hd => h ⟨hm2, hd⟩
      rw [hm2]
      have ha := feb_daysInMonth_le d.year
      have hb := feb_daysInMonth_ge y
      rw [hm2] at hdim
      omega
    · rw [show daysInMonth y d.month = daysInMonth d.year d.month from daysInMonth_indep hm2]
      exact hdim

theorem daysUntilFriday_eq_table (wd : Nat) :
    daysUntilFriday wd = weekendOffsetTable wd := by
  rcases wd with _|_|_|_|_|_|wd <;> rfl

theorem weekendOffsetTable_le (wd : Nat) : weekendOffsetTable wd ≤ 6 := by
  rcases wd with _|_|_|_|_|_|wd
  · decide
  · decide
  · decide
  · decide
  · decide
  · decide
  · exact Nat.le_refl 6

set_option maxHeartbeats 1600000 in
/-- C5 (amended): for every valid current date, `getWeekendDates` computes
`thisFriday` as today plus the offset given by the weekday table (Sunday→+5,
Monday→+4, Tuesday→+3, Wednesday→+2, Thursday→+1, Friday→+0, Saturday→+6),
`thisSaturday`/`thisSunday` as `thisFriday` plus 1 and 2 days, the
next-weekend triple as the this-weekend triple plus 7 days per day, and the
last-year triple as the this-weekend triple with the year decremented by one
and month/day unchanged — except that a this-weekend date falling on
February 29 is normalized by `setFullYear` to March 1 of the previous year. -/
theorem C5_getWeekendDates (today : CivilDate) (hv : validDate today = true) :
    (getWeekendDates today).thisFriday = addDays (weekendOffsetTable (dayOfWeek today)) today
    ∧ (getWeekendDates today).thisSaturday = addDays 1 (getWeekendDates today).thisFriday
    ∧ (getWeekendDates today).thisSunday = addDays 2 (getWeekendDates today).thisFriday
    ∧ (getWeekendDates today).nextFriday = addDays 7 (getWeekendDates today).thisFriday
    ∧ (getWeekendDates today).nextSaturday = addDays 1 (getWeekendDates today).nextFriday
    ∧ (getWeekendDates today).nextSunday = addDays 2 (getWeekendDates today).nextFriday
    ∧ (¬ ((getWeekendDates today).thisFriday.month = 2
          ∧ (getWeekendDates today).thisFriday.day = 29) →
        (getWeekendDates today).lastYearFriday
          = ⟨(getWeekendDates today).thisFriday.year - 1,
             (getWeekendDates today).thisFriday.month,
             (getWeekendDates today).thisFriday.day⟩)
    ∧ (¬ ((getWeekendDates today).thisSaturday.month = 2
          ∧ (getWeekendDates today).thisSaturday.day = 29) →
        (getWeekendDates today).lastYearSaturday
          = ⟨(getWeekendDates today).thisSaturday.year - 1,
             (getWeekendDates today).thisSaturday.month,
             (getWeekendDates today).thisSaturday.day⟩)
    ∧ (¬ ((getWeekendDates today).thisSunday.month = 2
          ∧ (getWeekendDates today).thisSunday.day = 29) →
        (getWeekendDates today).lastYearSunday
          = ⟨(getWeekendDates today).thisSunday.year - 1,
             (getWeekendDates today).thisSunday.month,
             (getWeekendDates today).thisSunday.day⟩) := by
  have hF : (getWeekendDates today).thisFriday
      = addDays (weekendOffsetTable (dayOfWeek today)) today := by
    show setDateJS today (today.day + daysUntilFriday (dayOfWeek today)) = _
    rw [daysUntilFriday_eq_table]
    exact setDateJS_add hv (Nat.le_trans (weekendOffsetTable_le _) (by omega))
  have hFv : validDate (getWeekendDates today).thisFriday = true := by
    rw [hF]
    exact validDate_addDays hv _
  have hSat : (getWeekendDates today).thisSaturday
      = addDays 1 (getWeekendDates today).thisFriday := by
    show setDateJS (getWeekendDates today).thisFriday
      ((getWeekendDates today).thisFriday.day + 1) = _
    exact setDateJS_add hFv (by omega)
  have hSatv : validDate (getWeekendDates today).thisSaturday = true := by
    rw [hSat]
    exact validDate_addDays hFv _
  have hSun : (getWeekendDates today).thisSunday
      = addDays 2 (getWeekendDates today).thisFriday := by
    show setDateJS (getWeekendDates today).thisFriday
      ((getWeekendDates today).thisFriday.day + 2) = _
    exact setDateJS_add hFv (by omega)
  have hSunv : validDate (getWeekendDates today).thisSunday = true := by
    rw [hSun]
    exact validDate_addDays hFv _
  have hNF : (getWeekendDates today).nextFriday
      = addDays 7 (getWeekendDates today).thisFriday := by
    show setDateJS (getWeekendDates today).thisFriday
      ((getWeekendDates today).thisFriday.day + 7) = _
    exact setDateJS_add hFv (by omega)
  have hNFv : validDate (getWeekendDates today).nextFriday = true := by
    rw [hNF]
    exact validDate_addDays hFv _
  have hNSat : (getWeekendDates today).nextSaturday
      = addDays 1 (getWeekendDates today).nextFriday := by
    show setDateJS (getWeekendDates today).nextFriday
      ((getWeekendDates today).nextFriday.day + 1) = _
    exact setDateJS_add hNFv (by omega)
  have hNSun : (getWeekendDates today).nextSunday
      = addDays 2 (getWeekendDates today).nextFriday := by
    show setDateJS (getWeekendDates today).nextFriday
      ((getWeekendDates today).nextFriday.day + 2) = _
    exact setDateJS_add hNFv (by omega)
  refine ⟨hF, hSat, hSun, hNF, hNSat, hNSun, ?_, ?_, ?_⟩
  · intro h
    show setFullYearJS (getWeekendDates today).thisFriday
      ((getWeekendDates today).thisFriday.year - 1) = _
    exact setFullYearJS_comp hFv h _
  · intro h
    show setFullYearJS (getWeekendDates today).thisSaturday
      ((getWeekendDates today).thisSaturday.year - 1) = _
    exact setFullYearJS_comp hSatv h _
  · intro h
    show setFullYearJS (getWeekendDates today).thisSunday
      ((getWeekendDates today).thisSunday.year - 1) = _
    exact setFullYearJS_comp hSunv h _

set_option maxHeartbeats 1600000 in
/-- C5 counterexample: on Friday 2036-02-29 (a leap day), `thisFriday` is
2036-02-29 itself, and `setFullYear(2035)` normalizes the non-existent
2035-02-29 to 2035-03-01, so the last-year triple does *not* keep month and
day unchanged. -/
theorem C5_counterexample :
    dayOfWeek ⟨2036, 2, 29⟩ = 5
    ∧ validDate ⟨2036, 2, 29⟩ = true
    ∧ (getWeekendDates ⟨2036, 2, 29⟩).thisFriday = ⟨2036, 2, 29⟩
    ∧ (getWeekendDates ⟨2036, 2, 29⟩).lastYearFriday = ⟨2035, 3, 1⟩
    ∧ (getWeekendDates ⟨2036, 2, 29⟩).lastYearFriday ≠ ⟨2035, 2, 29⟩ := by
  decide

set_option maxHeartbeats 1600000 in
theorem C5_getWeekendDates_witness :
    validDate ⟨2026, 10, 14⟩ = true
    ∧ (getWeekendDates ⟨2026, 10, 14⟩).thisFriday
        = addDays (weekendOffsetTable (dayOfWeek ⟨2026, 10, 14⟩)) ⟨2026, 10, 14⟩
    ∧ (getWeekendDates ⟨2026, 10, 14⟩).thisSaturday
        = addDays 1 (getWeekendDates ⟨2026, 10, 14⟩).thisFriday :=
  ⟨by decide, (C5_getWeekendDates ⟨2026, 10, 14⟩ (by decide)).1,
   (C5_getWeekendDates ⟨2026, 10, 14⟩ (by decide)).2.1⟩

/-! ## `generateSampleWeekendData` (weekend variant, lines 362-453)

The generator is a pure function of the ZIP code and of the ambient
environment.  The environment is modelled explicitly: `today` (the clock
read by `getWeekendDates` through `new Date()`) and `randomSeq` (the
`Math.random` stream, which `startFetching` consumes for its test-mode
delays but which the generator never touches).  `Math.sin` is a fixed
deterministic library function; it is abstracted as an explicit parameter
`mathSin`, passed identically to any two calls made in the same runtime.
JavaScript doubles are modelled as `Float`; no theorem below evaluates
floating-point arithmetic — the claims are equalities between calls, which
hold by congruence. -/

structure Env where
  today : CivilDate
  randomSeq : Nat → Float

structure CityInfo where
  name : String
  state : String
  deriving DecidableEq

/-- The `cities` lookup table (lines 363-374). -/
def sampleCities : List (String × CityInfo) :=
  [("10001", ⟨"New York", "NY"⟩), ("90210", ⟨"Beverly Hills", "CA"⟩),
   ("60601", ⟨"Chicago", "IL"⟩), ("33101", ⟨"Miami", "FL"⟩),
   ("02101", ⟨"Boston", "MA"⟩), ("48001", ⟨"Algonac", "MI"⟩),
   ("77001", ⟨"Houston", "TX"⟩), ("30301", ⟨"Atlanta", "GA"⟩),
   ("98101", ⟨"Seattle", "WA"⟩), ("85001", ⟨"Phoenix", "AZ"⟩)]

/-- The fixed 10-item `weatherDescriptions` enumeration (lines 376-387). -/
def weatherDescriptions : List String :=
  ["Sunny", "Partly Cloudy", "Cloudy", "Light Rain", "Heavy Rain",
   "Thunderstorms", "Snow", "Fog", "Clear", "Overcast"]

def digitsToNat (ds : List Char) : Nat :=
  ds.foldl (fun acc c => acc * 10 + (c.toNat - 48)) 0

def leadingNat (cs : List Char) : Option Nat :=
  let ds := cs.takeWhile Char.isDigit
  if ds = [] then none else some (digitsToNat ds)

/-- `Number.parseInt(s)` in base 10: skip leading whitespace, read an
optional sign and then the longest run of decimal digits; no digits means
`NaN`, modelled as `none`.  (The `0x` hexadecimal prefix JavaScript also
accepts is not modelled; it cannot change which ZIP-like inputs parse.) -/
def jsParseInt (s : String) : Option Int :=
  match s.data.dropWhile wsChar with
  | '-' :: rest => (leadingNat rest).map (fun n => -(n : Int))
  | '+' :: rest => (leadingNat rest).map (fun n => (n : Int))
  | cs => (leadingNat cs).map (fun n => (n : Int))

/-- `const zipSeed = Number.parseInt(zipCode) || 12345` (line 399): `NaN`
and `0` are falsy, so both fall back to `12345`. -/
def zipSeedOf (zipCode : String) : Int :=
  match jsParseInt zipCode with
  | none => 12345
  | some n => if n = 0 then 12345 else n

/-- The sine-based PRNG `random` (lines 400-403):
`x = Math.sin(seed) * 10000; return x - Math.floor(x)`. -/
def jsRandom (mathSin : Float → Float) (seed : Int) : Float :=
  let x := mathSin (Float.ofInt seed) * 10000
  x - Float.floor x

/-- `Math.round` (round half towards positive infinity). -/
def jsRound (x : Float) : Float := Float.floor (x + 0.5)

def monthShort (m : Nat) : String :=
  match m with
  | 1 => "Jan"
  | 2 => "Feb"
  | 3 => "Mar"
  | 4 => "Apr"
  | 5 => "May"
  | 6 => "Jun"
  | 7 => "Jul"
  | 8 => "Aug"
  | 9 => "Sep"
  | 10 => "Oct"
  | 11 => "Nov"
  | 12 => "Dec"
  | _ => ""

/-- `formatShortDate` (lines 349-355): `toLocaleDateString("en-US", {month:
"short", day: "numeric", year: "numeric"})`, e.g. "Oct 16, 2026". -/
def formatShortDate (d : CivilDate) : String :=
  monthShort d.month ++ " " ++ toString d.day ++ ", " ++ toString d.year

/-- The record produced per ZIP code (interface `WeekendWeatherData`,
lines 40-83).  Temperatures are JavaScript numbers, modelled as `Float`. -/
structure WeekendWeatherData where
  zip_code : String
  city : String
  state : String
  this_friday_date : String
  this_friday_high : Float
  this_friday_description : String
  this_saturday_date : String
  this_saturday_high : Float
  this_saturday_description : String
  this_sunday_date : String
  this_sunday_high : Float
  this_sunday_description : String
  last_year_friday_date : String
  last_year_friday_high : Float
  last_year_friday_description : String
  last_year_saturday_date : String
  last_year_saturday_high : Float
  last_year_saturday_description : String
  last_year_sunday_date : String
  last_year_sunday_high : Float
  last_year_sunday_description : String
  next_friday_date : String
  next_friday_high : Float
  next_friday_description : String
  next_saturday_date : String
  next_saturday_high : Float
  next_saturday_description : String
  next_sunday_date : String
  next_sunday_high : Float
  next_sunday_description : String

/-- One temperature slot (offset `k` in 1,3,5,...,17):
`Math.round(baseTemp + (random(zipSeed + k) * tempVariation - tempVariation / 2))`
with `baseTemp = 40 + random(zipSeed) * 40` and `tempVariation = 15`. -/
def sampleHigh (mathSin : Float → Float) (zipSeed : Int) (k : Int) : Float :=
  let baseTemp := 40 + jsRandom mathSin zipSeed * 40
  let tempVariation : Float := 15
  jsRound (baseTemp + (jsRandom mathSin (zipSeed + k) * tempVariation - tempVariation / 2))

/-- One description slot (offset `k` in 2,4,6,...,18):
`weatherDescriptions[Math.floor(random(zipSeed + k) * weatherDescriptions.length)]`.
With the real sine the index is always in range; an out-of-range index
(JavaScript `undefined`) is defaulted to the first entry. -/
def sampleDescription (mathSin : Float → Float) (zipSeed : Int) (k : Int) : String :=
  weatherDescriptions.getD
    (Float.floor (jsRandom mathSin (zipSeed + k)
      * (weatherDescriptions.length).toFloat)).toUInt64.toNat
    "Sunny"

/-- Embedding of `generateSampleWeekendData` (lines 362-453). -/
def generateSampleWeekendData (mathSin : Float → Float) (env : Env)
    (zipCode : String) : WeekendWeatherData :=
  let cityData := (((sampleCities.find? (fun p => p.1 == zipCode)).map
    (fun p => p.2)).getD ⟨"City " ++ zipCode, "XX"⟩)
  let dates := getWeekendDates env.today
  let zipSeed := zipSeedOf zipCode
  { zip_code := zipCode
    city := cityData.name
    state := cityData.state
    this_friday_date := formatShortDate dates.thisFriday
    this_friday_high := sampleHigh mathSin zipSeed 1
    this_friday_description := sampleDescription mathSin zipSeed 2
    this_saturday_date := formatShortDate dates.thisSaturday
    this_saturday_high := sampleHigh mathSin zipSeed 3
    this_saturday_description := sampleDescription mathSin zipSeed 4
    this_sunday_date := formatShortDate dates.thisSunday
    this_sunday_high := sampleHigh mathSin zipSeed 5
    this_sunday_description := sampleDescription mathSin zipSeed 6
    last_year_friday_date := formatShortDate dates.lastYearFriday
    last_year_friday_high := sampleHigh mathSin zipSeed 7
    last_year_friday_description := sampleDescription mathSin zipSeed 8
    last_year_saturday_date := formatShortDate dates.lastYearSaturday
    last_year_saturday_high := sampleHigh mathSin zipSeed 9
    last_year_saturday_description := sampleDescription mathSin zipSeed 10
    last_year_sunday_date := formatShortDate dates.lastYearSunday
    last_year_sunday_high := sampleHigh mathSin zipSeed 11
    last_year_sunday_description := sampleDescription mathSin zipSeed 12
    next_friday_date := formatShortDate dates.nextFriday
    next_friday_high := sampleHigh mathSin zipSeed 13
    next_friday_description := sampleDescription mathSin zipSeed 14
    next_saturday_date := formatShortDate dates.nextSaturday
    next_saturday_high := sampleHigh mathSin zipSeed 15
    next_saturday_description := sampleDescription mathSin zipSeed 16
    next_sunday_date := formatShortDate dates.nextSunday
    next_sunday_high := sampleHigh mathSin zipSeed 17
    next_sunday_description := sampleDescription mathSin zipSeed 18 }

/-- C4: the synthetic generator is deterministic.  With the same `Math.sin`
(a fixed library function), two calls of `generateSampleWeekendData` with
the same ZIP code string, evaluated against the same current date, produce
identical `WeekendWeatherData` records in every field — regardless of any
other ambient state such as the `Math.random` stream. -/
theorem C4_generator_deterministic (mathSin : Float → Float) (e1 e2 : Env)
    (zipCode : String) (h : e1.today = e2.today) :
    generateSampleWeekendData mathSin e1 zipCode
      = generateSampleWeekendData mathSin e2 zipCode := by
  cases e1 with
  | mk t1 r1 =>
    cases e2 with
    | mk t2 r2 =>
      have h' : t1 = t2 := h
      subst h'
      rfl

theorem C4_generator_deterministic_witness :
    (⟨⟨2026, 10, 11⟩, fun _ => 0⟩ : Env).today = (⟨⟨2026, 10, 11⟩, fun _ => 0.5⟩ : Env).today
    ∧ generateSampleWeekendData (fun _ => 0) ⟨⟨2026, 10, 11⟩, fun _ => 0⟩ "10001"
        = generateSampleWeekendData (fun _ => 0) ⟨⟨2026, 10, 11⟩, fun _ => 0.5⟩ "10001" :=
  ⟨rfl, C4_generator_deterministic (fun _ => 0) _ _ "10001" rfl⟩

/-- C10: for every ZIP code string whose `Number.parseInt` result is `NaN`
or `0`, `generateSampleWeekendData` falls back to the fixed seed 12345, so
any two such strings (in the same environment) produce identical temperature
and description values in every one of the 18 slots. -/
theorem C10_fallback_seed (mathSin : Float → Float) (e : Env) (z1 z2 : String)
    (h1 : jsParseInt z1 = none ∨ jsParseInt z1 = some 0)
    (h2 : jsParseInt z2 = none ∨ jsParseInt z2 = some 0) :
    zipSeedOf z1 = 12345 ∧ zipSeedOf z2 = 12345
    ∧ (generateSampleWeekendData mathSin e z1).this_friday_high
        = (generateSampleWeekendData mathSin e z2).this_friday_high
    ∧ (generateSampleWeekendData mathSin e z1).this_saturday_high
        = (generateSampleWeekendData mathSin e z2).this_saturday_high
    ∧ (generateSampleWeekendData mathSin e z1).this_sunday_high
        = (generateSampleWeekendData mathSin e z2).this_sunday_high
    ∧ (generateSampleWeekendData mathSin e z1).last_year_friday_high
        = (generateSampleWeekendData mathSin e z2).last_year_friday_high
    ∧ (generateSampleWeekendData mathSin e z1).last_year_saturday_high
        = (generateSampleWeekendData mathSin e z2).last_year_saturday_high
    ∧ (generateSampleWeekendData mathSin e z1).last_year_sunday_high
        = (generateSampleWeekendData mathSin e z2).last_year_sunday_high
    ∧ (generateSampleWeekendData mathSin e z1).next_friday_high
        = (generateSampleWeekendData mathSin e z2).next_friday_high
    ∧ (generateSampleWeekendData mathSin e z1).next_saturday_high
        = (generateSampleWeekendData mathSin e z2).next_saturday_high
    ∧ (generateSampleWeekendData mathSin e z1).next_sunday_high
        = (generateSampleWeekendData mathSin e z2).next_sunday_high
    ∧ (generateSampleWeekendData mathSin e z1).this_friday_description
        = (generateSampleWeekendData mathSin e z2).this_friday_description
    ∧ (generateSampleWeekendData mathSin e z1).this_saturday_description
        = (generateSampleWeekendData mathSin e z2).this_saturday_description
    ∧ (generateSampleWeekendData mathSin e z1).this_sunday_description
        = (generateSampleWeekendData mathSin e z2).this_sunday_description
    ∧ (generateSampleWeekendData mathSin e z1).last_year_friday_description
        = (generateSampleWeekendData mathSin e z2).last_year_friday_description
    ∧ (generateSampleWeekendData mathSin e z1).last_year_saturday_description
        = (generateSampleWeekendData mathSin e z2).last_year_saturday_description
    ∧ (generateSampleWeekendData mathSin e z1).last_year_sunday_description
        = (generateSampleWeekendData mathSin e z2).last_year_sunday_description
    ∧ (generateSampleWeekendData mathSin e z1).next_friday_description
        = (generateSampleWeekendData mathSin e z2).next_friday_description
    ∧ (generateSampleWeekendData mathSin e z1).next_saturday_description
        = (generateSampleWeekendData mathSin e z2).next_saturday_description
    ∧ (generateSampleWeekendData mathSin e z1).next_sunday_description
        = (generateSampleWeekendData mathSin e z2).next_sunday_description := by
  have hs1 : zipSeedOf z1 = 12345 := by
    rcases h1 with h | h <;> simp [zipSeedOf, h]
  have hs2 : zipSeedOf z2 = 12345 := by
    rcases h2 with h | h <;> simp [zipSeedOf, h]
  refine ⟨hs1, hs2, ?_, ?_, ?_, ?_, ?_, ?_, ?_, ?_, ?_, ?_, ?_, ?_, ?_, ?_, ?_, ?_, ?_, ?_⟩
  all_goals simp only [generateSampleWeekendData, hs1, hs2]

theorem C10_fallback_seed_witness :
    (jsParseInt "abcde" = none ∨ jsParseInt "abcde" = some 0)
    ∧ (jsParseInt "00000" = none ∨ jsParseInt "00000" = some 0)
    ∧ zipSeedOf "abcde" = 12345 ∧ zipSeedOf "00000" = 12345
    ∧ (generateSampleWeekendData (fun _ => 0) ⟨⟨2026, 10, 11⟩, fun _ => 0⟩ "abcde").this_friday_high
        = (generateSampleWeekendData (fun _ => 0) ⟨⟨2026, 10, 11⟩, fun _ => 0⟩ "00000").this_friday_high :=
  ⟨Or.inl (by decide), Or.inr (by decide),
   (C10_fallback_seed (fun _ => 0) ⟨⟨2026, 10, 11⟩, fun _ => 0⟩ "abcde" "00000"
     (Or.inl (by decide)) (Or.inr (by decide))).1,
   (C10_fallback_seed (fun _ => 0) ⟨⟨2026, 10, 11⟩, fun _ => 0⟩ "abcde" "00000"
     (Or.inl (by decide)) (Or.inr (by decide))).2.1,
   (C10_fallback_seed (fun _ => 0) ⟨⟨2026, 10, 11⟩, fun _ => 0⟩ "abcde" "00000"
     (Or.inl (by decide)) (Or.inr (by decide))).2.2.1⟩
